import Mathlib

/-
Verification of the stage-orchestration and artifact-validation core of
AmpliconSuite-pipeline.py (a single-file Python pipeline driver).

The Python source is shallowly embedded:
 - pure helper functions become Lean functions over explicit data
   (file contents are lists of characters, parsed rows are structures);
 - Python floats are modelled as rationals (for purity/ploidy, where only
   comparisons against 0.4 and truthiness matter) or as real numbers (for
   the log2-ratio -> copy-number transform, where the spec claims exact
   exponentiation);
 - fallible Python code (int() parses that may raise, comparisons against
   None that raise TypeError, NameError on unbound locals) is modelled with
   Except, the error standing for an uncaught Python exception;
 - the __main__ straight-line script from the finish-flag initialisation
   (source line 741) onward is modelled as a function from an environment
   (parsed arguments plus an oracle of every external check/process
   outcome) to a result recording the exit code, the sequence of writes to
   the finish-flag file, the executed stages and the failure-detector
   outcome.  Every sys.exit(1) after the flag initialisation leaves the
   flag at its initial content, which the translation makes explicit.
-/

namespace ASPipe

/-! ## Character-list string helpers

The Python code uses str operations (rstrip, rsplit, startswith, int(),
lower, substring search).  They are modelled on `List Char` by structural
recursion so that concrete runs reduce definitionally. -/

/-- Python `str.rstrip()`: drop trailing whitespace. -/
def rstripChars (s : List Char) : List Char :=
  (s.reverse.dropWhile Char.isWhitespace).reverse

/-- Suffix of `s` after the last occurrence of `sep`, if `sep` occurs. -/
def afterLastOcc (sep : List Char) : List Char → Option (List Char)
  | [] => none
  | c :: cs =>
    match afterLastOcc sep cs with
    | some r => some r
    | none =>
      if sep.isPrefixOf (c :: cs) then some ((c :: cs).drop sep.length)
      else none

/-- Python `s.rsplit(sep)[-1]`: the chunk after the last occurrence of
`sep`, or all of `s` when `sep` does not occur. -/
def rsplitLast (sep s : List Char) : List Char :=
  match afterLastOcc sep s with
  | some r => r
  | none => s

def pyParseNatAux (acc : Nat) : List Char → Option Nat
  | [] => some acc
  | c :: cs => if c.isDigit then pyParseNatAux (acc * 10 + (c.toNat - 48)) cs else none

/-- Python `int(s)` restricted to an optional sign followed by digits;
`none` models a raised ValueError. -/
def pyParseInt (s : List Char) : Option Int :=
  match s with
  | [] => none
  | '-' :: cs =>
    match cs with
    | [] => none
    | _ => (pyParseNatAux 0 cs).map (fun n => -(n : Int))
  | cs => (pyParseNatAux 0 cs).map (fun n => (n : Int))

/-- Split file content on newline characters, Python-file-iteration style. -/
def splitOnNl : List Char → List (List Char)
  | [] => [[]]
  | c :: cs =>
    let r := splitOnNl cs
    if c = '\n' then [] :: r
    else
      match r with
      | [] => [[c]]
      | l :: ls => (c :: l) :: ls

/-- Does `pat` occur as a contiguous sublist of `s`? -/
def hasInfixChars (pat : List Char) : List Char → Bool
  | [] => false
  | c :: cs => pat.isPrefixOf (c :: cs) || hasInfixChars pat cs

/-- Python `s.endswith(pat)`. -/
def strEndsWith (s pat : String) : Bool :=
  pat.data.isSuffixOf s.data

/-! ## C1: centromere map construction (`get_ref_centromeres`, lines 390-409)

The source iterates the centromere-tagged BED rows of the reference.  A row
for a fresh chromosome stores the raw (start, end) pair; a row for an
already-seen chromosome stores
(min(cur.start, row.start) - 20000, max(cur.end, row.end) + 20000).
Coordinates are kept as strings in Python and re-parsed with int() at each
merge; since int(str(n)) = n they are modelled directly as integers. -/

/-- One centromere-tagged row: fields[0], int(fields[1]), int(fields[2]). -/
structure CentroRow where
  chrom : String
  startC : Int
  endC : Int

/-- One iteration of the loop body of `get_ref_centromeres` on the
accumulated dictionary (an association list keyed by chromosome). -/
def centroInsert (d : List (String × Int × Int)) (r : CentroRow) : List (String × Int × Int) :=
  match d with
  | [] => [(r.chrom, r.startC, r.endC)]
  | (c, s, e) :: rest =>
    if c = r.chrom then
      (c, min s r.startC - 20000, max e r.endC + 20000) :: rest
    else
      (c, s, e) :: centroInsert rest r

/-- `get_ref_centromeres`: fold the loop body over the tagged rows. -/
def get_ref_centromeres (rows : List CentroRow) : List (String × Int × Int) :=
  rows.foldl centroInsert []

/-- Dictionary lookup in the resulting centromere map. -/
def centroLookup (d : List (String × Int × Int)) (c : String) : Option (Int × Int) :=
  match d with
  | [] => none
  | (c2, s, e) :: rest => if c2 = c then some (s, e) else centroLookup rest c

/-! ## C2: segmentation-to-interval conversion
(`convert_cnvkit_cns_to_bed`, lines 213-231)

The source skips the header line of the .cns table, and for every following
record emits one interval line keeping fields[0:3], the source label
"CNVkit" and the copy number 2 ** (float(fields[4]) + 1).  The log2 ratio
and the copy number are modelled as real numbers, exact exponentiation
standing for the float arithmetic. -/

/-- A parsed .cns record: fields[0..3] verbatim, fields[4] as the ratio. -/
structure CNSRow where
  chrom : String
  startS : String
  endS : String
  gene : String
  log2 : ℝ

/-- An output interval line: fields[0:3] ++ ["CNVkit", str(cn)]. -/
structure BedInterval where
  chrom : String
  startS : String
  endS : String
  label : String
  cn : ℝ

/-- The per-record transform of the conversion loop body. -/
noncomputable def cnvkitRowToBed (r : CNSRow) : BedInterval :=
  ⟨r.chrom, r.startS, r.endS, "CNVkit", (2:ℝ) ^ (r.log2 + 1)⟩

/-- The conversion loop over the records following the header. -/
noncomputable def convertLines : List CNSRow → List BedInterval
  | [] => []
  | r :: rest => cnvkitRowToBed r :: convertLines rest

/-- `convert_cnvkit_cns_to_bed` on the rows of the .cns file; `none` models
the StopIteration raised by `next(infile)` on an empty file. -/
noncomputable def convert_cnvkit_cns_to_bed (file : List CNSRow) : Option (List BedInterval) :=
  match file with
  | [] => none
  | _ :: rows => some (convertLines rows)

/-! ## Filesystem model and the failure detector
(`detect_run_failure`, lines 455-510) -/

/-- Filesystem snapshot: path to file content (characters).  A missing path
models a missing file; `os.stat` on it raises OSError. -/
structure FS where
  files : List (String × List Char)

def FS.lookup (fs : FS) (p : String) : Option (List Char) :=
  match fs.files.find? (fun q => q.1 == p) with
  | some q => some q.2
  | none => none

/-- `os.stat(p).st_size`; `none` models the raised OSError. -/
def FS.statSize (fs : FS) (p : String) : Option Nat :=
  (fs.lookup p).map List.length

/-- `grep -i error` on the alignment stderr log: non-empty output iff the
file exists and contains "error" case-insensitively (a missing file or no
match makes check_output raise CalledProcessError, caught → ""). -/
def alignCheck (fs : FS) (f : String) : Bool :=
  match fs.lookup f with
  | none => false
  | some content => hasInfixChars "error".data (content.map Char.toLower)

/-- The summary-scanning loop (lines 471-476): namps starts at -1 and the
first line starting with "#Amplicons = " sets it to
int(line.rstrip().rsplit(" = ")[-1]); a failed int() raises (error). -/
def findAmps : List (List Char) → Except Unit Int
  | [] => Except.ok (-1)
  | l :: rest =>
    if ("#Amplicons = ".data).isPrefixOf l then
      match pyParseInt (rsplitLast (" = ".data) (rstripChars l)) with
      | some n => Except.ok n
      | none => Except.error ()
    else findAmps rest

/-- Lines 482-491: some x in 1..namps has a missing or zero-length
`<sname>_amplicon<x>_cycles.txt` (missing is read as size 0). -/
def cyclesMissing (fs : FS) (aaDir sname : String) (namps : Int) : Bool :=
  ((List.range namps.toNat).map (fun k => k + 1)).any
    (fun x => ((fs.statSize (aaDir ++ sname ++ "_amplicon" ++ toString x ++ "_cycles.txt")).getD 0) == 0)

/-- The reconstruction-output check (lines 468-495). -/
def aaCheck (fs : FS) (aaDir sname : String) : Except Unit Bool :=
  match fs.lookup (aaDir ++ sname ++ "_summary.txt") with
  | none => Except.ok true
  | some content =>
    match findAmps (splitOnNl content) with
    | Except.error e => Except.error e
    | Except.ok namps =>
      if namps < 0 then Except.ok true
      else Except.ok (cyclesMissing fs aaDir sname namps)

/-- The classification-output check (lines 497-508): the single try block
sets both sizes to 0 if either stat raises. -/
def acCheck (fs : FS) (acDir sname : String) : Bool :=
  match fs.statSize (acDir ++ sname ++ "_amplicon_classification_profiles.tsv"),
        fs.statSize (acDir ++ sname ++ "_result_table.tsv") with
  | some a, some b => a == 0 || b == 0
  | _, _ => true

/-- `detect_run_failure(align_stderr_file, AA_outdir, sname, AC_outdir)`:
ok true = failure found, ok false = no failure, error = an uncaught
exception escaping the function (the int() parse in the summary scan). -/
def detect_run_failure (fs : FS) (alignStderr : Option String) (aaOut : Option String)
    (sname : String) (acOut : Option String) : Except Unit Bool :=
  let alignBad := match alignStderr with
    | some f => alignCheck fs f
    | none => false
  if alignBad then Except.ok true
  else
    let acBad := match acOut with
      | some d => acCheck fs d sname
      | none => false
    match aaOut with
    | none => Except.ok acBad
    | some dir =>
      match aaCheck fs dir sname with
      | Except.error e => Except.error e
      | Except.ok true => Except.ok true
      | Except.ok false => Except.ok acBad

/-! ## Rescaling (`rescale_cnvkit_calls`, lines 234-251)

purity and ploidy are optional floats (modelled as `Option ℚ`).  The
function logs a no-effect warning when both are absent, then evaluates
`purity < 0.4` unguarded: when purity is None this comparison raises
TypeError under Python 3 (modelled as `Except.error ()`), before any
rescale command is issued.  Python truthiness (`if purity:`) makes a 0.0
value behave like an absent one when building the command line. -/

inductive RescaleWarning
  | noEffect
  | lowPurity
deriving DecidableEq

/-- The 0.4 purity threshold of source line 240. -/
def purityThreshold : ℚ := mkRat 2 5

/-- Returns the warnings logged (in order) and either the issued rescale
command string or the uncaught TypeError. -/
def rescale_cnvkit_calls (ckpyPath outDirArg baseArg : String) (cnsfile : Option String)
    (ploidy purity : Option ℚ) : List RescaleWarning × Except Unit String :=
  let w1 : List RescaleWarning :=
    if purity = none ∧ ploidy = none then [RescaleWarning.noEffect] else []
  let cns := match cnsfile with
    | some c => c
    | none => outDirArg ++ baseArg ++ ".cns"
  match purity with
  | none => (w1, Except.error ())
  | some p =>
    let w2 : List RescaleWarning :=
      if p < purityThreshold then [RescaleWarning.lowPurity] else []
    let cmd0 := "python3 " ++ ckpyPath ++ " call " ++ cns ++ " -m clonal"
    let cmd1 := if p ≠ 0 then cmd0 ++ " --purity " ++ toString p else cmd0
    let cmd2 := match ploidy with
      | some q => if q ≠ 0 then cmd1 ++ " --ploidy " ++ toString q else cmd1
      | none => cmd1
    (w1 ++ w2, Except.ok (cmd2 ++ " -o " ++ outDirArg ++ baseArg ++ "_rescaled.cns"))

/-! ## The __main__ orchestration model (lines 741-1100)

`Env` packages the parsed arguments together with an oracle for every
filesystem/external-tool check the script performs; `mainRun` is the
straight-line script from the finish-flag initialisation onward.  All
pre-pipeline `sys.exit(1)` points (lines 753-919, 938-945) produce the
same observable outcome — exit status 1, no stage executed, finish flag
left at its initial content — so they are collected into the conjunction
`preflightOk` (each conjunct is annotated with its source lines). -/

inductive InputKind
  | fastqs
  | bam
  | completedRuns
deriving DecidableEq

inductive Stage
  | align
  | indexQC
  | cnvCalling
  | seedFilter
  | reconstruction
  | classification
deriving DecidableEq

structure Env where
  inputKind : InputKind
  ref : Option String
  alignOnly : Bool
  runAA : Bool
  runAC : Bool
  noFilter : Bool
  cnvBed : Option String
  cnvkitDir : Option String
  completedRunMetadata : Option String
  ploidy : Option ℚ
  purity : Option ℚ
  outdir : String
  sname : String
  bamBase : String
  fs : FS
  samtoolsOk : Bool
  aaSrcOk : Bool
  acSrcOk : Bool
  cnvkitOnPath : Bool
  mosekOk : Bool
  rscriptOk : Bool
  aaPythonOk : Bool
  bamNoSpaces : Bool
  refRepoOk : Bool
  determinedRef : Option String
  cnvBedExists : Bool
  fastqsDistinct : Bool
  fastqsNoSpaces : Bool
  cnvkitSegmentOk : Bool
  ampliconIntervalsOk : Bool
  aaOk : Bool

/-- Python truthiness of an optional float argument (None and 0.0 falsy). -/
def pyTruthyQ (o : Option ℚ) : Bool :=
  match o with
  | none => false
  | some x => !(x == 0)

/-- Lines 805-812: the `which cnvkit.py` lookup runs (and may exit) only
when no CNV source, no cnvkit dir, no prior-run metadata and not
align-only, with a reads/alignment input. -/
def whichCnvkitNeeded (env : Env) : Bool :=
  env.cnvBed.isNone && env.cnvkitDir.isNone && env.completedRunMetadata.isNone &&
  !env.alignOnly && (env.inputKind == InputKind.fastqs || env.inputKind == InputKind.bam)

/-- Line 838: after line 820 the cnvkit path is always truthy, so CNVkit
runs exactly when no CNV bed was supplied. -/
def runCNVb (env : Env) : Bool :=
  env.cnvBed.isNone

/-- Input-kind-specific early exits: BAM spaces / data-repo / undetermined
reference (lines 877-898) and fastq duplicate/spaces checks (938-945). -/
def inputChecksOk (env : Env) : Bool :=
  match env.inputKind with
  | InputKind.bam =>
    env.bamNoSpaces &&
    (match env.ref with
     | some _ => env.refRepoOk
     | none => !env.determinedRef.isNone)
  | InputKind.fastqs => env.fastqsDistinct && env.fastqsNoSpaces
  | InputKind.completedRuns => true

/-- All pre-stage `sys.exit(1)` checks between the finish-flag write and
the first stage, as one conjunction. -/
def preflightOk (env : Env) : Bool :=
  env.samtoolsOk &&                      -- lines 753-758
  env.aaSrcOk &&                         -- lines 770-780
  env.acSrcOk &&                         -- lines 782-795
  !((env.inputKind == InputKind.fastqs || env.inputKind == InputKind.completedRuns)
     && env.ref.isNone) &&               -- lines 797-799
  (!(whichCnvkitNeeded env) || env.cnvkitOnPath) &&  -- lines 805-812
  (!env.runAA || env.mosekOk) &&         -- lines 823-835
  (!(runCNVb env) || env.rscriptOk) &&   -- lines 838-853
  env.aaPythonOk &&                      -- lines 861-863
  inputChecksOk env &&                   -- lines 877-898, 938-945
  (match env.cnvBed with                 -- lines 917-919
   | some _ => env.cnvBedExists
   | none => true)

/-- What a completed (non-early-exited) run hands to `detect_run_failure`
at line 1092. -/
structure PipeDone where
  stages : List Stage
  alnLog : Option String
  aaDir : Option String
  acDir : Option String

def cnvkitOutDir (env : Env) : String :=
  env.outdir ++ env.sname ++ "_cnvkit_output/"

/-- Lines 1086-1095 argument preparation: AC_outdir is unbound (NameError,
modelled as a fatal error) when classification was requested without
reconstruction in the non-prior-results flow. -/
def finishNC (env : Env) (stgs : List Stage) (alnLog : Option String) :
    Except (List Stage) (Sum (List Stage) PipeDone) :=
  if env.runAC && !env.runAA then Except.error stgs
  else
    Except.ok (Sum.inr ⟨stgs,
      alnLog,
      if env.runAA then some (env.outdir ++ env.sname ++ "_AA_results/") else none,
      if env.runAC then some (env.outdir ++ env.sname ++ "_classification/") else none⟩)

/-- Lines 1032-1055: AmpliconArchitect and (then) AmpliconClassifier.  When
the no-filter-with-CNVkit branch was taken, `amplified_interval_bed` was
never bound and line 1042 raises NameError. -/
def aaPart (env : Env) (stgs : List Stage) (alnLog : Option String) (ampBedBound : Bool) :
    Except (List Stage) (Sum (List Stage) PipeDone) :=
  if env.runAA then
    if !ampBedBound then Except.error stgs
    else
      let stgs2 := stgs ++ [Stage.reconstruction]
      if !env.aaOk then Except.error stgs2
      else
        finishNC env (if env.runAC then stgs2 ++ [Stage.classification] else stgs2) alnLog
  else finishNC env stgs alnLog

/-- Lines 1007-1025: seed prefiltering / amplified_intervals invocation,
dispatching on the --no_filter flag and the CNV bed path suffix. -/
def afterCNV (env : Env) (stgs : List Stage) (alnLog : Option String) (bed : String) :
    Except (List Stage) (Sum (List Stage) PipeDone) :=
  if !env.noFilter && !(strEndsWith bed "_AA_CNV_SEEDS.bed") then
    let stgs2 := stgs ++ [Stage.seedFilter]
    if !env.ampliconIntervalsOk then Except.error stgs2
    else aaPart env stgs2 alnLog true
  else if env.noFilter && runCNVb env then
    aaPart env stgs alnLog false
  else
    aaPart env stgs alnLog true

/-- The reads/alignment flow (lines 936-1064): optional bwa stage, index +
QC, the align-only early clean exit (lines 970-975), CNV calling with
optional rescale (a TypeError escaping `rescale_cnvkit_calls` aborts the
script), .cns conversion, then seed filtering and AA/AC. -/
def nonCompletedBody (env : Env) (isFastq : Bool) :
    Except (List Stage) (Sum (List Stage) PipeDone) :=
  let stgs1 := (if isFastq then [Stage.align] else []) ++ [Stage.indexQC]
  let alnLog := if isFastq then some (env.outdir ++ env.sname ++ "_aln_stage.stderr") else none
  if env.alignOnly then Except.ok (Sum.inl stgs1)
  else if runCNVb env then
    let stgs2 := stgs1 ++ [Stage.cnvCalling]
    if !env.cnvkitSegmentOk then Except.error stgs2
    else
      let bed := cnvkitOutDir env ++ env.bamBase ++ "_CNV_CALLS.bed"
      if pyTruthyQ env.ploidy || pyTruthyQ env.purity then
        match (rescale_cnvkit_calls "cnvkit.py" (cnvkitOutDir env) env.bamBase none
                 env.ploidy env.purity).2 with
        | Except.error _ => Except.error stgs2
        | Except.ok _ => afterCNV env stgs2 alnLog bed
      else afterCNV env stgs2 alnLog bed
  else
    let rawBed := env.cnvBed.getD ""
    let bed := if strEndsWith rawBed ".cns"
      then env.outdir ++ env.bamBase ++ "_CNV_CALLS.bed"
      else rawBed
    afterCNV env stgs1 alnLog bed

/-- Lines 1066-1084: the prior-results flow runs classification only.  If
--run_AA was also set, AA_outdir is unbound at line 1092 (NameError after
classification already ran). -/
def completedBody (env : Env) : Except (List Stage) (Sum (List Stage) PipeDone) :=
  let stgs := [Stage.classification]
  if env.runAA then Except.error stgs
  else
    Except.ok (Sum.inr ⟨stgs, none, none,
      if env.runAC then some (env.outdir ++ env.sname ++ "_classification/") else none⟩)

def pipelineBody (env : Env) : Except (List Stage) (Sum (List Stage) PipeDone) :=
  match env.inputKind with
  | InputKind.fastqs => nonCompletedBody env true
  | InputKind.bam => nonCompletedBody env false
  | InputKind.completedRuns => completedBody env

def runPipeline (env : Env) : Except (List Stage) (Sum (List Stage) PipeDone) :=
  if preflightOk env then pipelineBody env else Except.error []

/-- Observable outcome of one script run: process exit code, the sequence
of contents written to `<sample>_finish_flag.txt` (line 747 writes the
first entry), the external stages launched, and the failure-detector
outcome (none when the script never reached line 1092). -/
structure MainResult where
  exitCode : Nat
  flagWrites : List String
  stages : List Stage
  detectOutcome : Option (Except Unit Bool)

/-- The script from line 741: write UNSUCCESSFUL, run the pipeline, and on
reaching line 1092 rewrite the flag only when the detector reports no
failure. -/
def mainRun (env : Env) : MainResult :=
  match runPipeline env with
  | Except.error stgs => ⟨1, ["UNSUCCESSFUL"], stgs, none⟩
  | Except.ok (Sum.inl stgs) => ⟨0, ["UNSUCCESSFUL"], stgs, none⟩
  | Except.ok (Sum.inr d) =>
    match detect_run_failure env.fs d.alnLog d.aaDir env.sname d.acDir with
    | Except.error e => ⟨1, ["UNSUCCESSFUL"], d.stages, some (Except.error e)⟩
    | Except.ok true => ⟨0, ["UNSUCCESSFUL"], d.stages, some (Except.ok true)⟩
    | Except.ok false =>
      ⟨0, ["UNSUCCESSFUL", "All stages completed"], d.stages, some (Except.ok false)⟩

/-- Finish-flag content after the run ends. -/
def finalFlag (r : MainResult) : String :=
  r.flagWrites.getLastD ""

/-! ## Claim C1: centromere map span -/

/-- Claim C1 as stated is false: a chromosome with a single centromere row
is stored with its raw, unpadded coordinates — (100, 200), not
(100 - 20000, 200 + 20000). -/
theorem c1_counterexample :
    centroLookup (get_ref_centromeres [⟨"chr1", 100, 200⟩]) "chr1" = some (100, 200) ∧
    (((100 : Int), (200 : Int)) ≠ ((100 : Int) - 20000, (200 : Int) + 20000)) := by
  exact ⟨rfl, by decide⟩

/-- Claim C1, amended: a single-row chromosome keeps the raw (start, end)
span with no padding; a chromosome with exactly two rows yields the padded
span (min start - 20000, max end + 20000) in either order; with three rows
the padding compounds and the result is order-dependent. -/
theorem c1_amended :
    (∀ r : CentroRow,
       centroLookup (get_ref_centromeres [r]) r.chrom = some (r.startC, r.endC)) ∧
    (∀ (c : String) (s1 e1 s2 e2 : Int),
       centroLookup (get_ref_centromeres [⟨c, s1, e1⟩, ⟨c, s2, e2⟩]) c
         = some (min s1 s2 - 20000, max e1 e2 + 20000) ∧
       centroLookup (get_ref_centromeres [⟨c, s2, e2⟩, ⟨c, s1, e1⟩]) c
         = some (min s1 s2 - 20000, max e1 e2 + 20000)) ∧
    (centroLookup (get_ref_centromeres
        [⟨"chr1", 100000, 200000⟩, ⟨"chr1", 50000, 250000⟩, ⟨"chr1", 150000, 160000⟩]) "chr1"
      ≠ centroLookup (get_ref_centromeres
        [⟨"chr1", 150000, 160000⟩, ⟨"chr1", 100000, 200000⟩, ⟨"chr1", 50000, 250000⟩]) "chr1") := by
  refine ⟨?_, ?_, ?_⟩
  · intro r
    simp [get_ref_centromeres, centroInsert, centroLookup]
  · intro c s1 e1 s2 e2
    constructor
    · simp [get_ref_centromeres, centroInsert, centroLookup]
    · simp [get_ref_centromeres, centroInsert, centroLookup, min_comm, max_comm]
  · decide

/-! ## Claim C2: ratio-to-copy-number conversion -/

/-- The conversion loop is a map of the per-record transform. -/
lemma convertLines_eq_map (rows : List CNSRow) :
    convertLines rows = rows.map cnvkitRowToBed := by
  induction rows with
  | nil => rfl
  | cons r rest ih => simp [convertLines, ih]

/-- Claim C2: for every segmentation record the converter emits exactly one
interval, keeping chromosome/start/end, labelled "CNVkit", with copy number
exactly 2 ^ (log2Ratio + 1); a record with log2Ratio = 0 yields copy number
2; no record is dropped (one output per input record). -/
theorem c2_convert_exact :
    (∀ (header : CNSRow) (rows : List CNSRow),
       convert_cnvkit_cns_to_bed (header :: rows) = some (rows.map cnvkitRowToBed)) ∧
    (∀ r : CNSRow,
       cnvkitRowToBed r = ⟨r.chrom, r.startS, r.endS, "CNVkit", (2:ℝ) ^ (r.log2 + 1)⟩) ∧
    (∀ r : CNSRow, r.log2 = 0 → (cnvkitRowToBed r).cn = 2) ∧
    (∀ (header : CNSRow) (rows : List CNSRow),
       (convert_cnvkit_cns_to_bed (header :: rows)).map List.length = some rows.length) := by
  refine ⟨?_, ?_, ?_, ?_⟩
  · intro header rows
    simp [convert_cnvkit_cns_to_bed, convertLines_eq_map]
  · intro r
    rfl
  · intro r h
    simp [cnvkitRowToBed, h, Real.rpow_one]
  · intro header rows
    simp [convert_cnvkit_cns_to_bed, convertLines_eq_map]

/-- Witness for C2: the record with log2 ratio 0 converts to copy number 2. -/
theorem c2_witness : (cnvkitRowToBed ⟨"chr1", "0", "100", "-", 0⟩).cn = 2 :=
  c2_convert_exact.2.2.1 ⟨"chr1", "0", "100", "-", 0⟩ rfl

/-! ## Claim C5: low-purity warning threshold -/

/-- Claim C5: the 0.4 threshold is exactly 2/5, every supplied purity
strictly between 0 and 0.4 triggers the low-purity warning and rescaling
still proceeds (a command is issued), and a purity at or above 0.4 never
triggers it. -/
theorem c5_low_purity_warning :
    purityThreshold = 2/5 ∧
    ∀ (ck od b : String) (cns : Option String) (pl : Option ℚ) (p : ℚ),
      (0 < p → p < purityThreshold →
        RescaleWarning.lowPurity ∈ (rescale_cnvkit_calls ck od b cns pl (some p)).1 ∧
        ∃ c, (rescale_cnvkit_calls ck od b cns pl (some p)).2 = Except.ok c) ∧
      (purityThreshold ≤ p →
        RescaleWarning.lowPurity ∉ (rescale_cnvkit_calls ck od b cns pl (some p)).1 ∧
        ∃ c, (rescale_cnvkit_calls ck od b cns pl (some p)).2 = Except.ok c) := by
  constructor
  · unfold purityThreshold
    rw [Rat.mkRat_eq_div]
    norm_num
  · intro ck od b cns pl p
    constructor
    · intro h0 hlt
      constructor
      · simp [rescale_cnvkit_calls, hlt]
      · exact ⟨_, rfl⟩
    · intro hge
      constructor
      · simp [rescale_cnvkit_calls, not_lt.mpr hge]
      · exact ⟨_, rfl⟩

/-- Witness for C5: purity 1/5 (below 0.4) warns; purity 1/2 does not. -/
theorem c5_witness :
    (RescaleWarning.lowPurity ∈
       (rescale_cnvkit_calls "ck" "od/" "b" none none (some (mkRat 1 5))).1) ∧
    (RescaleWarning.lowPurity ∉
       (rescale_cnvkit_calls "ck" "od/" "b" none none (some (mkRat 1 2))).1) :=
  ⟨(((c5_low_purity_warning.2 "ck" "od/" "b" none none (mkRat 1 5)).1
      (by decide) (by decide)).1),
   (((c5_low_purity_warning.2 "ck" "od/" "b" none none (mkRat 1 2)).2
      (by decide)).1)⟩

/-! ## Claim C7: rescale with neither purity nor ploidy -/

/-- Claim C7 as stated is false: with neither purity nor ploidy the
function logs the no-effect warning but then raises TypeError at the
unguarded `purity < 0.4` comparison instead of completing normally. -/
theorem c7_counterexample :
    (rescale_cnvkit_calls "cnvkit.py" "out/" "s" none none none).1
        = [RescaleWarning.noEffect] ∧
    (rescale_cnvkit_calls "cnvkit.py" "out/" "s" none none none).2 = Except.error () := by
  exact ⟨rfl, rfl⟩

/-- Claim C7, amended: calling rescale with neither purity nor ploidy
emits the no-effect warning and then raises TypeError (None compared with
0.4) before any rescale command is issued; no command is run, so the call
never rescales anything, but it does not complete normally. -/
theorem c7_amended :
    ∀ (ck od b : String) (cns : Option String),
      rescale_cnvkit_calls ck od b cns none none
        = ([RescaleWarning.noEffect], Except.error ()) := by
  intro ck od b cns
  rfl

/-! ## Claim C9: rescale with purity = None and ploidy supplied -/

/-- Claim C9: ploidy-only rescaling (purity = None) raises TypeError at the
unguarded comparison before any command is issued (and without the
no-effect warning), while any supplied purity always completes and issues
a command. -/
theorem c9_rescale_purity_none :
    (∀ (ck od b : String) (cns : Option String) (q : ℚ),
       rescale_cnvkit_calls ck od b cns (some q) none = ([], Except.error ())) ∧
    (∀ (ck od b : String) (cns : Option String) (pl : Option ℚ) (p : ℚ),
       ∃ w c, rescale_cnvkit_calls ck od b cns pl (some p) = (w, Except.ok c)) := by
  constructor
  · intro ck od b cns q
    rfl
  · intro ck od b cns pl p
    exact ⟨_, _, rfl⟩

/-! ## Claim C8: failure detector skips absent stages -/

/-- Claim C8: with no reconstruction directory the reconstruction check is
skipped entirely — the result is exactly the disjunction of the alignment
and classification checks, never an exception — and with all three
arguments absent the detector reports no failure on every filesystem. -/
theorem c8_detect_skip_absent :
    (∀ (fs : FS) (s : String),
       detect_run_failure fs none none s none = Except.ok false) ∧
    (∀ (fs : FS) (s : String) (alignArg acArg : Option String),
       detect_run_failure fs alignArg none s acArg =
         Except.ok ((match alignArg with | some f => alignCheck fs f | none => false) ||
                    (match acArg with | some d => acCheck fs d s | none => false))) := by
  constructor
  · intro fs s
    rfl
  · intro fs s alignArg acArg
    cases alignArg with
    | none =>
      cases acArg <;> simp [detect_run_failure]
    | some f =>
      cases h : alignCheck fs f <;> cases acArg <;> simp [detect_run_failure, h]

/-! ## Claim C3: the reconstruction-output check -/

/-- With only the reconstruction directory supplied, the detector is the
reconstruction check. -/
lemma detect_aa_only (fs : FS) (dir s : String) :
    detect_run_failure fs none (some dir) s none = aaCheck fs dir s := by
  unfold detect_run_failure
  cases h : aaCheck fs dir s with
  | error e => simp [h]
  | ok b => cases b <;> simp [h]

lemma aaCheck_ok_true_iff (fs : FS) (dir s : String) :
    aaCheck fs dir s = Except.ok true ↔
      (fs.lookup (dir ++ s ++ "_summary.txt") = none ∨
       ∃ content n, fs.lookup (dir ++ s ++ "_summary.txt") = some content ∧
         findAmps (splitOnNl content) = Except.ok n ∧
         (n < 0 ∨ cyclesMissing fs dir s n = true)) := by
  unfold aaCheck
  cases hl : fs.lookup (dir ++ s ++ "_summary.txt") with
  | none => simp
  | some content =>
    cases hf : findAmps (splitOnNl content) with
    | error e =>
      cases e
      simp [hf]
    | ok n =>
      by_cases hn : n < 0
      · simp [hf, hn]
      · cases hc : cyclesMissing fs dir s n <;> simp [hf, hn, hc]

lemma aaCheck_error_iff (fs : FS) (dir s : String) :
    aaCheck fs dir s = Except.error () ↔
      ∃ content, fs.lookup (dir ++ s ++ "_summary.txt") = some content ∧
        findAmps (splitOnNl content) = Except.error () := by
  unfold aaCheck
  cases hl : fs.lookup (dir ++ s ++ "_summary.txt") with
  | none => simp
  | some content =>
    cases hf : findAmps (splitOnNl content) with
    | error e =>
      cases e
      simp [hf]
    | ok n =>
      by_cases hn : n < 0
      · simp [hf, hn]
      · simp [hf, hn]

/-- Reconstruction directory whose summary declares 3 amplicons but only 2
non-empty per-amplicon cycles files exist. -/
def fsThreeDeclared : FS :=
  ⟨[("out/s_summary.txt", "#Amplicons = 3".data),
    ("out/s_amplicon1_cycles.txt", "x".data),
    ("out/s_amplicon2_cycles.txt", "x".data)]⟩

/-- Reconstruction directory whose summary declares 2 amplicons, both
cycles files present and non-empty. -/
def fsTwoDeclared : FS :=
  ⟨[("out/s_summary.txt", "#Amplicons = 2".data),
    ("out/s_amplicon1_cycles.txt", "x".data),
    ("out/s_amplicon2_cycles.txt", "x".data)]⟩

/-- Reconstruction directory whose summary carries a "#Amplicons = " line
with a non-integer value. -/
def fsBadCount : FS :=
  ⟨[("out/s_summary.txt", "#Amplicons = three".data)]⟩

/-- Claim C3 as stated is false: on a summary whose "#Amplicons = " line is
not a parseable integer — an amplicon count that cannot be obtained — the
detector raises an uncaught exception (int() ValueError) instead of
reporting failure. -/
theorem c3_counterexample :
    detect_run_failure fsBadCount none (some "out/") "s" none = Except.error () ∧
    (Except.error () : Except Unit Bool) ≠ Except.ok true := by
  exact ⟨rfl, fun h => Except.noConfusion h⟩

/-- Claim C3, amended: with only a reconstruction directory supplied the
detector reports failure iff the summary file is missing, or the count
scan yields a negative value (no "#Amplicons = " line, or a negative
declared count), or one of the N expected per-amplicon cycles files is
missing or zero-length; when the "#Amplicons = " value is present but not
a parseable integer, the detector instead raises.  The two concrete
scenarios of the claim hold: 3 declared amplicons with only 2 non-empty
cycles files reports failure; 2 declared with both non-empty reports no
failure. -/
theorem c3_amended_detect :
    (∀ (fs : FS) (dir s : String),
      (detect_run_failure fs none (some dir) s none = Except.ok true ↔
        (fs.lookup (dir ++ s ++ "_summary.txt") = none ∨
         ∃ content n, fs.lookup (dir ++ s ++ "_summary.txt") = some content ∧
           findAmps (splitOnNl content) = Except.ok n ∧
           (n < 0 ∨ cyclesMissing fs dir s n = true))) ∧
      (detect_run_failure fs none (some dir) s none = Except.error () ↔
        ∃ content, fs.lookup (dir ++ s ++ "_summary.txt") = some content ∧
          findAmps (splitOnNl content) = Except.error ())) ∧
    detect_run_failure fsThreeDeclared none (some "out/") "s" none = Except.ok true ∧
    detect_run_failure fsTwoDeclared none (some "out/") "s" none = Except.ok false := by
  refine ⟨?_, rfl, rfl⟩
  intro fs dir s
  rw [detect_aa_only]
  exact ⟨aaCheck_ok_true_iff fs dir s, aaCheck_error_iff fs dir s⟩

/-! ## Claim C4: finish-flag lifecycle -/

/-- Every run either succeeds (flag rewritten, detector said no failure,
exit 0) or leaves the flag at its single initial write. -/
lemma mainRun_shape (env : Env) :
    ((mainRun env).flagWrites = ["UNSUCCESSFUL", "All stages completed"] ∧
      (mainRun env).detectOutcome = some (Except.ok false) ∧
      (mainRun env).exitCode = 0) ∨
    ((mainRun env).flagWrites = ["UNSUCCESSFUL"] ∧
      (mainRun env).detectOutcome ≠ some (Except.ok false) ∧
      ((mainRun env).detectOutcome = some (Except.ok true) → (mainRun env).exitCode = 0)) := by
  unfold mainRun
  cases hp : runPipeline env with
  | error stgs => right; exact ⟨rfl, by simp, by simp⟩
  | ok v =>
    cases v with
    | inl stgs => right; exact ⟨rfl, by simp, by simp⟩
    | inr d =>
      cases hd : detect_run_failure env.fs d.alnLog d.aaDir env.sname d.acDir with
      | error e => right; simp [hd]
      | ok b =>
        cases b with
        | false => left; simp [hd]
        | true => right; simp [hd]

/-- Claim C4: the first finish-flag write of every run is UNSUCCESSFUL; the
flag ends as the success marker exactly when the run reached the final
failure-detector call and it reported no failure; every run exiting with a
non-zero status leaves the flag at UNSUCCESSFUL; and a post-hoc validation
failure (detector reports failure) leaves the flag at UNSUCCESSFUL while
the process still exits with status zero. -/
theorem c4_finish_flag_lifecycle :
    (∀ env : Env, (mainRun env).flagWrites.head? = some "UNSUCCESSFUL") ∧
    (∀ env : Env,
       (finalFlag (mainRun env) = "All stages completed" ↔
        (mainRun env).detectOutcome = some (Except.ok false))) ∧
    (∀ env : Env, (mainRun env).exitCode ≠ 0 → finalFlag (mainRun env) = "UNSUCCESSFUL") ∧
    (∀ env : Env, (mainRun env).detectOutcome = some (Except.ok true) →
       finalFlag (mainRun env) = "UNSUCCESSFUL" ∧ (mainRun env).exitCode = 0) := by
  refine ⟨?_, ?_, ?_, ?_⟩
  · intro env
    rcases mainRun_shape env with ⟨hf, _, _⟩ | ⟨hf, _, _⟩ <;> simp [hf]
  · intro env
    rcases mainRun_shape env with ⟨hf, hd, _⟩ | ⟨hf, hd, _⟩
    · simp [finalFlag, hf, hd]
    · simp [finalFlag, hf, hd]
  · intro env hx
    rcases mainRun_shape env with ⟨hf, _, hz⟩ | ⟨hf, _, _⟩
    · exact absurd hz hx
    · simp [finalFlag, hf]
  · intro env hd
    rcases mainRun_shape env with ⟨hf, hd2, _⟩ | ⟨hf, _, hz⟩
    · rw [hd2] at hd
      simp at hd
    · exact ⟨by simp [finalFlag, hf], hz hd⟩

/-- A run that exits fatally before any stage (samtools version probe
fails). -/
def envExitEarly : Env :=
  ⟨InputKind.bam,            -- inputKind
   some "GRCh38",            -- ref
   false,                    -- alignOnly
   false,                    -- runAA
   false,                    -- runAC
   false,                    -- noFilter
   some "calls.bed",         -- cnvBed
   none,                     -- cnvkitDir
   none,                     -- completedRunMetadata
   none,                     -- ploidy
   none,                     -- purity
   "o/",                     -- outdir
   "s",                      -- sname
   "bam",                    -- bamBase
   ⟨[]⟩,                     -- fs
   false,                    -- samtoolsOk
   true, true,               -- aaSrcOk acSrcOk
   true,                     -- cnvkitOnPath
   true, true, true,         -- mosekOk rscriptOk aaPythonOk
   true, true,               -- bamNoSpaces refRepoOk
   some "GRCh38",            -- determinedRef
   true,                     -- cnvBedExists
   true, true,               -- fastqsDistinct fastqsNoSpaces
   true, true, true⟩         -- cnvkitSegmentOk ampliconIntervalsOk aaOk

/-- A run that completes all stages but whose alignment log contains an
error marker, so the detector reports a post-hoc failure. -/
def envDetectFail : Env :=
  ⟨InputKind.fastqs,         -- inputKind
   some "GRCh38",            -- ref
   false,                    -- alignOnly
   false,                    -- runAA
   false,                    -- runAC
   false,                    -- noFilter
   some "calls.bed",         -- cnvBed
   none,                     -- cnvkitDir
   none,                     -- completedRunMetadata
   none,                     -- ploidy
   none,                     -- purity
   "o/",                     -- outdir
   "s",                      -- sname
   "bam",                    -- bamBase
   ⟨[("o/s_aln_stage.stderr", "ERROR: bwa".data)]⟩,  -- fs
   true, true, true,         -- samtoolsOk aaSrcOk acSrcOk
   true,                     -- cnvkitOnPath
   true, true, true,         -- mosekOk rscriptOk aaPythonOk
   true, true,               -- bamNoSpaces refRepoOk
   some "GRCh38",            -- determinedRef
   true,                     -- cnvBedExists
   true, true,               -- fastqsDistinct fastqsNoSpaces
   true, true, true⟩         -- cnvkitSegmentOk ampliconIntervalsOk aaOk

/-- Witness for C4: a fatal early exit leaves UNSUCCESSFUL; a post-hoc
validation failure leaves UNSUCCESSFUL yet exits zero. -/
theorem c4_witness :
    finalFlag (mainRun envExitEarly) = "UNSUCCESSFUL" ∧
    (finalFlag (mainRun envDetectFail) = "UNSUCCESSFUL" ∧
      (mainRun envDetectFail).exitCode = 0) :=
  ⟨c4_finish_flag_lifecycle.2.2.1 envExitEarly (by decide),
   c4_finish_flag_lifecycle.2.2.2 envDetectFail (by rfl)⟩

/-! ## Claim C6: prior-results input kind -/

/-- Claim C6: with a prior-results directory and no explicit reference the
run exits with status 1 having executed no stage; with a reference
supplied (and the pre-stage environment checks passing) the executed plan
is exactly the classification stage. -/
theorem c6_prior_results_plan :
    (∀ env : Env, env.inputKind = InputKind.completedRuns → env.ref = none →
       (mainRun env).exitCode = 1 ∧ (mainRun env).stages = []) ∧
    (∀ env : Env, env.inputKind = InputKind.completedRuns → env.ref ≠ none →
       preflightOk env = true →
       (mainRun env).stages = [Stage.classification]) := by
  constructor
  · intro env hk hr
    have hpf : preflightOk env = false := by
      simp [preflightOk, hk, hr]
    simp [mainRun, runPipeline, hpf]
  · intro env hk hr hpf
    have hb : runPipeline env = completedBody env := by
      simp [runPipeline, hpf, pipelineBody, hk]
    cases hA : env.runAA with
    | true =>
      have hc : completedBody env = Except.error [Stage.classification] := by
        simp [completedBody, hA]
      simp [mainRun, hb, hc]
    | false =>
      have hc : completedBody env = Except.ok (Sum.inr ⟨[Stage.classification], none, none,
          if env.runAC then some (env.outdir ++ env.sname ++ "_classification/") else none⟩) := by
        simp [completedBody, hA]
      cases hd : detect_run_failure env.fs none none env.sname
          (if env.runAC then some (env.outdir ++ env.sname ++ "_classification/") else none) with
      | error e => simp [mainRun, hb, hc, hd]
      | ok b => cases b <;> simp [mainRun, hb, hc, hd]

/-- Prior-results run without an explicit reference genome. -/
def envPriorNoRef : Env :=
  ⟨InputKind.completedRuns,  -- inputKind
   none,                     -- ref
   false,                    -- alignOnly
   false,                    -- runAA
   false,                    -- runAC
   false,                    -- noFilter
   none,                     -- cnvBed
   none,                     -- cnvkitDir
   none,                     -- completedRunMetadata
   none,                     -- ploidy
   none,                     -- purity
   "o/",                     -- outdir
   "s",                      -- sname
   "bam",                    -- bamBase
   ⟨[]⟩,                     -- fs
   true, true, true,         -- samtoolsOk aaSrcOk acSrcOk
   true,                     -- cnvkitOnPath
   true, true, true,         -- mosekOk rscriptOk aaPythonOk
   true, true,               -- bamNoSpaces refRepoOk
   none,                     -- determinedRef
   true,                     -- cnvBedExists
   true, true,               -- fastqsDistinct fastqsNoSpaces
   true, true, true⟩         -- cnvkitSegmentOk ampliconIntervalsOk aaOk

/-- Prior-results run with an explicit reference genome. -/
def envPriorWithRef : Env :=
  ⟨InputKind.completedRuns,  -- inputKind
   some "GRCh38",            -- ref
   false,                    -- alignOnly
   false,                    -- runAA
   true,                     -- runAC
   false,                    -- noFilter
   none,                     -- cnvBed
   none,                     -- cnvkitDir
   none,                     -- completedRunMetadata
   none,                     -- ploidy
   none,                     -- purity
   "o/",                     -- outdir
   "s",                      -- sname
   "bam",                    -- bamBase
   ⟨[("o/s_classification/s_amplicon_classification_profiles.tsv", "x".data),
     ("o/s_classification/s_result_table.tsv", "x".data)]⟩,  -- fs
   true, true, true,         -- samtoolsOk aaSrcOk acSrcOk
   true,                     -- cnvkitOnPath
   true, true, true,         -- mosekOk rscriptOk aaPythonOk
   true, true,               -- bamNoSpaces refRepoOk
   none,                     -- determinedRef
   true,                     -- cnvBedExists
   true, true,               -- fastqsDistinct fastqsNoSpaces
   true, true, true⟩         -- cnvkitSegmentOk ampliconIntervalsOk aaOk

/-- Witness for C6 at concrete prior-results runs. -/
theorem c6_witness :
    ((mainRun envPriorNoRef).exitCode = 1 ∧ (mainRun envPriorNoRef).stages = []) ∧
    (mainRun envPriorWithRef).stages = [Stage.classification] :=
  ⟨c6_prior_results_plan.1 envPriorNoRef rfl rfl,
   c6_prior_results_plan.2 envPriorWithRef rfl (by decide) (by decide)⟩

/-! ## Claim C10: align-only early exit -/

/-- Claim C10: with the align-only flag set on a reads/alignment input
(and the pre-stage checks passing) the process exits with status zero
right after the indexing/QC stage, never calls the failure detector, and
leaves the finish flag at UNSUCCESSFUL. -/
theorem c10_align_only :
    ∀ env : Env, env.alignOnly = true → env.inputKind ≠ InputKind.completedRuns →
      preflightOk env = true →
      (mainRun env).exitCode = 0 ∧
      (mainRun env).detectOutcome = none ∧
      finalFlag (mainRun env) = "UNSUCCESSFUL" ∧
      (mainRun env).stages =
        (if env.inputKind = InputKind.fastqs
         then [Stage.align, Stage.indexQC] else [Stage.indexQC]) := by
  intro env hA hk hpf
  cases hik : env.inputKind with
  | completedRuns => exact absurd hik hk
  | fastqs =>
    have hb : runPipeline env = Except.ok (Sum.inl [Stage.align, Stage.indexQC]) := by
      simp [runPipeline, hpf, pipelineBody, hik, nonCompletedBody, hA]
    simp [mainRun, hb, finalFlag, hik]
  | bam =>
    have hb : runPipeline env = Except.ok (Sum.inl [Stage.indexQC]) := by
      simp [runPipeline, hpf, pipelineBody, hik, nonCompletedBody, hA]
    simp [mainRun, hb, finalFlag, hik]

/-- An align-only run on a BAM input with every environment check passing. -/
def envAlignOnly : Env :=
  ⟨InputKind.bam,            -- inputKind
   some "GRCh38",            -- ref
   true,                     -- alignOnly
   false,                    -- runAA
   false,                    -- runAC
   false,                    -- noFilter
   none,                     -- cnvBed
   none,                     -- cnvkitDir
   none,                     -- completedRunMetadata
   none,                     -- ploidy
   none,                     -- purity
   "o/",                     -- outdir
   "s",                      -- sname
   "bam",                    -- bamBase
   ⟨[]⟩,                     -- fs
   true, true, true,         -- samtoolsOk aaSrcOk acSrcOk
   true,                     -- cnvkitOnPath
   true, true, true,         -- mosekOk rscriptOk aaPythonOk
   true, true,               -- bamNoSpaces refRepoOk
   some "GRCh38",            -- determinedRef
   true,                     -- cnvBedExists
   true, true,               -- fastqsDistinct fastqsNoSpaces
   true, true, true⟩         -- cnvkitSegmentOk ampliconIntervalsOk aaOk

/-- Witness for C10: a fully successful align-only BAM run still leaves the
flag UNSUCCESSFUL and never consults the detector. -/
theorem c10_witness :
    (mainRun envAlignOnly).exitCode = 0 ∧
    (mainRun envAlignOnly).detectOutcome = none ∧
    finalFlag (mainRun envAlignOnly) = "UNSUCCESSFUL" ∧
    (mainRun envAlignOnly).stages =
      (if envAlignOnly.inputKind = InputKind.fastqs
       then [Stage.align, Stage.indexQC] else [Stage.indexQC]) :=
  c10_align_only envAlignOnly rfl (by decide) (by decide)

end ASPipe
